import Mathlib

/-!
Verification of the SwitchAI unification layer (provider dispatch, request and
response adapters, Browser superclient) against its specification.

The embedding follows the source files:
  src/switchai/main_client.py       (SwitchAI facade and provider resolution)
  src/switchai/providers/_openai.py (OpenAI request and response adapters)
  src/switchai/superclients/browser.py (Browser superclient)

Python exceptions are modelled with `Except`; the process environment and the
vendor chat endpoint are modelled as explicit oracle functions; in-place list
mutation of caller-owned lists is modelled by returning the final list
contents in the result record.
-/

namespace SwitchAICore

/-- A provider module as discovered by `_get_provider_client`: its module name
(the glob over `providers/_*.py` yields lowercase module basenames), its
`SUPPORTED_MODELS` table (a dict from category to the list of model names,
in dict order) and its `API_KEY_NAMING` environment-variable name. -/
structure ProviderModule where
  name : String
  supportedModels : List (String × List String)
  apiKeyNaming : String
deriving Repr, DecidableEq

/-- The `ValueError`s raised by `SwitchAI.__init__` and its operation gates,
keyed by the data each message interpolates. -/
inductive SwitchError where
  | unknownProvider (provider : String) (supportedProviders : List String)
  | unsupportedModel (model : String) (provider : String) (alternatives : List String)
  | unsupportedModelAnywhere (model : String)
  | missingCredential (envName : String)
  | categoryMismatch (model : String) (category : String)
deriving Repr, DecidableEq

/-- The loop `for category, models in provider_module.SUPPORTED_MODELS.items():
if self.model_name in models: ...` — first category whose model list contains
the model name, if any. -/
def findCategory (supported : List (String × List String)) (model : String) :
    Option String :=
  match supported with
  | [] => none
  | (category, models) :: rest =>
      if model ∈ models then some category else findCategory rest model

/-- `SwitchAI._get_provider_client`, from main_client.py lines 26-84.
`registry` is the list of provider modules found by the glob (dynamic at
runtime, hence a parameter); `env` models `os.environ.get`. The provider
string has already been lowercased by `__init__`. Returns the resolved
api key together with the model category (the constructed adapter itself is
vendor code outside this layer). -/
def getProviderClient (registry : List ProviderModule) (provider model : String)
    (apiKey : Option String) (env : String → Option String) :
    Except SwitchError (String × String) :=
  let providerModules := registry.map (·.name)
  match registry.find? (fun pm => pm.name = provider) with
  | none => .error (.unknownProvider provider providerModules)
  | some pm =>
      match findCategory pm.supportedModels model with
      | none =>
          let alternativeProviders :=
            (registry.filter
              (fun q => (findCategory q.supportedModels model).isSome)).map (·.name)
          if alternativeProviders ≠ [] then
            .error (.unsupportedModel model provider alternativeProviders)
          else
            .error (.unsupportedModelAnywhere model)
      | some category =>
          let key := match apiKey with
            | some k => some k
            | none => env pm.apiKeyNaming
          match key with
          | none => .error (.missingCredential pm.apiKeyNaming)
          | some k => .ok (k, category)

/-- The state a successful `SwitchAI.__init__` leaves behind: lowercased
provider, model name, resolved api key, and the model category fixed for the
client's lifetime. -/
structure SwitchAI where
  provider : String
  modelName : String
  apiKey : String
  modelCategory : String
deriving Repr, DecidableEq

/-- Python `str.lower()` (ASCII case mapping), applied characterwise. -/
def pyLower (s : String) : String :=
  String.mk (s.data.map Char.toLower)

/-- `SwitchAI.__init__`: lowercases the provider then resolves via
`_get_provider_client`. -/
def SwitchAI.construct (registry : List ProviderModule) (provider modelName : String)
    (apiKey : Option String) (env : String → Option String) :
    Except SwitchError SwitchAI :=
  let p := pyLower provider
  (getProviderClient registry p modelName apiKey env).map
    (fun r => { provider := p, modelName := modelName,
                apiKey := r.1, modelCategory := r.2 })

/-- `SwitchAI.chat` (main_client.py lines 86-97): gate on the fixed category,
then forward all arguments unchanged to the provider adapter. The adapter
call is the oracle `clientChat`; the argument tuple is abstract because this
layer never inspects it. -/
def SwitchAI.chat {α β : Type} (c : SwitchAI) (clientChat : α → β) (args : α) :
    Except SwitchError β :=
  if c.modelCategory ≠ "chat" then
    .error (.categoryMismatch c.modelName "chat")
  else
    .ok (clientChat args)

/-- `SwitchAI.embed` (main_client.py lines 99-102). -/
def SwitchAI.embed {α β : Type} (c : SwitchAI) (clientEmbed : α → β) (args : α) :
    Except SwitchError β :=
  if c.modelCategory ≠ "embed" then
    .error (.categoryMismatch c.modelName "embed")
  else
    .ok (clientEmbed args)

/-- `SwitchAI.transcribe` (main_client.py lines 104-107). -/
def SwitchAI.transcribe {α β : Type} (c : SwitchAI) (clientTranscribe : α → β)
    (args : α) : Except SwitchError β :=
  if c.modelCategory ≠ "transcribe" then
    .error (.categoryMismatch c.modelName "transcribe")
  else
    .ok (clientTranscribe args)

/-- `SwitchAI.generate_image` (main_client.py lines 109-112). -/
def SwitchAI.generate_image {α β : Type} (c : SwitchAI) (clientGenerateImage : α → β)
    (args : α) : Except SwitchError β :=
  if c.modelCategory ≠ "generate_image" then
    .error (.categoryMismatch c.modelName "generate_image")
  else
    .ok (clientGenerateImage args)

end SwitchAICore

namespace OpenAIAdapter

/-- Named characters, so that quote and brace characters never appear bare in
the text of this file. -/
def dquote : Char := Char.ofNat 34

def squote : Char := Char.ofNat 39

def lbrace : Char := Char.ofNat 123

def rbrace : Char := Char.ofNat 125

def lbrack : Char := Char.ofNat 91

def rbrack : Char := Char.ofNat 93

def dquoteS : String := String.singleton dquote

def squoteS : String := String.singleton squote

def lbraceS : String := String.singleton lbrace

def rbraceS : String := String.singleton rbrace

/-- The structured values a tool call's `arguments` mapping can hold
(JSON-parseable Python values; numbers restricted to integers, which the
claims exercise). -/
inductive Json where
  | null
  | bool (b : Bool)
  | num (n : Int)
  | str (s : String)
  | arr (elems : List Json)
  | obj (members : List (String × Json))

mutual

/-- Python `str()` / `repr()` of a parsed-JSON value: `None`/`True`/`False`
capitalised, and strings written between single quotes. This is what
`str(tool["function"]["arguments"])` produces in
`OpenAIChatInputsAdapter._adapt_chat_choice`. -/
def pythonRepr : Json → String
  | .null => "None"
  | .bool true => "True"
  | .bool false => "False"
  | .num n => toString n
  | .str s => squoteS ++ s ++ squoteS
  | .arr elems => "[" ++ pythonReprElems elems ++ "]"
  | .obj members => lbraceS ++ pythonReprMembers members ++ rbraceS

def pythonReprElems : List Json → String
  | [] => ""
  | [v] => pythonRepr v
  | v :: w :: rest => pythonRepr v ++ ", " ++ pythonReprElems (w :: rest)

def pythonReprMembers : List (String × Json) → String
  | [] => ""
  | [(k, v)] => squoteS ++ k ++ squoteS ++ ": " ++ pythonRepr v
  | (k, v) :: m :: rest =>
      squoteS ++ k ++ squoteS ++ ": " ++ pythonRepr v ++ ", " ++
        pythonReprMembers (m :: rest)

end

/-- JSON string escaping for the two escapes this model serialises. -/
def jsonEscapeChar (c : Char) : String :=
  if c = dquote then "\\" ++ dquoteS
  else if c = '\\' then "\\\\"
  else String.singleton c

def jsonEscapeStr (s : String) : String :=
  String.join (s.data.map jsonEscapeChar)

mutual

/-- `json.dumps` with default separators: the JSON text of a value, strings
between double quotes. (The serialisation `json.loads` inverts.) -/
def jsonDumps : Json → String
  | .null => "null"
  | .bool true => "true"
  | .bool false => "false"
  | .num n => toString n
  | .str s => dquoteS ++ jsonEscapeStr s ++ dquoteS
  | .arr elems => "[" ++ jsonDumpsElems elems ++ "]"
  | .obj members => lbraceS ++ jsonDumpsMembers members ++ rbraceS

def jsonDumpsElems : List Json → String
  | [] => ""
  | [v] => jsonDumps v
  | v :: w :: rest => jsonDumps v ++ ", " ++ jsonDumpsElems (w :: rest)

def jsonDumpsMembers : List (String × Json) → String
  | [] => ""
  | [(k, v)] => dquoteS ++ jsonEscapeStr k ++ dquoteS ++ ": " ++ jsonDumps v
  | (k, v) :: m :: rest =>
      dquoteS ++ jsonEscapeStr k ++ dquoteS ++ ": " ++ jsonDumps v ++ ", " ++
        jsonDumpsMembers (m :: rest)

end

/-- Whitespace skipping for the JSON parser. -/
def skipWs : List Char → List Char
  | [] => []
  | c :: cs =>
      if c = ' ' || c = Char.ofNat 10 || c = Char.ofNat 9 || c = Char.ofNat 13 then
        skipWs cs
      else c :: cs

/-- Body of a JSON string literal, after the opening double quote: collects
characters up to the closing double quote, handling the two escapes this
model serialises. Strings must be double-quoted: a single-quoted Python-repr
literal never begins a JSON string. -/
def parseStringBody (acc : List Char) : List Char → Option (String × List Char)
  | [] => none
  | c :: cs =>
      if c = dquote then some (String.mk acc.reverse, cs)
      else if c = '\\' then
        match cs with
        | [] => none
        | e :: cs2 =>
            if e = dquote then parseStringBody (dquote :: acc) cs2
            else if e = '\\' then parseStringBody ('\\' :: acc) cs2
            else none
      else parseStringBody (c :: acc) cs

/-- Decimal digit run for the JSON number grammar (integers). -/
def parseDigits (acc : Nat) (seen : Bool) : List Char → Option (Nat × List Char)
  | [] => if seen then some (acc, []) else none
  | c :: cs =>
      if c.isDigit then parseDigits (acc * 10 + (c.toNat - 48)) true cs
      else if seen then some (acc, c :: cs) else none

mutual

/-- A JSON value, fuel-indexed (fuel bounds nesting). Accepts exactly the
JSON grammar on the fragment this model covers: double-quoted strings,
lowercase `true`/`false`/`null`, integers, arrays, objects. -/
def parseValue : Nat → List Char → Option (Json × List Char)
  | 0, _ => none
  | fuel + 1, input =>
      match skipWs input with
      | [] => none
      | c :: cs =>
          if c = dquote then
            match parseStringBody [] cs with
            | some (s, rest) => some (.str s, rest)
            | none => none
          else if c = lbrace then parseMembers fuel cs
          else if c = lbrack then parseElems fuel cs
          else if c = '-' then
            match parseDigits 0 false cs with
            | some (n, rest) => some (.num (-(n : Int)), rest)
            | none => none
          else if c.isDigit then
            match parseDigits 0 false (c :: cs) with
            | some (n, rest) => some (.num (n : Int), rest)
            | none => none
          else if (c :: cs).take 4 = "true".data then
            some (.bool true, (c :: cs).drop 4)
          else if (c :: cs).take 5 = "false".data then
            some (.bool false, (c :: cs).drop 5)
          else if (c :: cs).take 4 = "null".data then
            some (.null, (c :: cs).drop 4)
          else none

/-- Object members, after the opening brace. -/
def parseMembers : Nat → List Char → Option (Json × List Char)
  | 0, _ => none
  | fuel + 1, input =>
      match skipWs input with
      | [] => none
      | c :: cs =>
          if c = rbrace then some (.obj [], cs)
          else if c = dquote then
            match parseStringBody [] cs with
            | none => none
            | some (key, rest) =>
                match skipWs rest with
                | ':' :: rest2 =>
                    match parseValue fuel rest2 with
                    | none => none
                    | some (v, rest3) => parseMembersAfter fuel [(key, v)] rest3
                | _ => none
          else none

/-- Object members after at least one `key: value` pair has been read. -/
def parseMembersAfter : Nat → List (String × Json) → List Char →
    Option (Json × List Char)
  | 0, _, _ => none
  | fuel + 1, acc, input =>
      match skipWs input with
      | [] => none
      | c :: cs =>
          if c = rbrace then some (.obj acc, cs)
          else if c = ',' then
            match skipWs cs with
            | [] => none
            | d :: ds =>
                if d = dquote then
                  match parseStringBody [] ds with
                  | none => none
                  | some (key, rest) =>
                      match skipWs rest with
                      | ':' :: rest2 =>
                          match parseValue fuel rest2 with
                          | none => none
                          | some (v, rest3) =>
                              parseMembersAfter fuel (acc ++ [(key, v)]) rest3
                      | _ => none
                else none
          else none

/-- Array elements, after the opening bracket. -/
def parseElems : Nat → List Char → Option (Json × List Char)
  | 0, _ => none
  | fuel + 1, input =>
      match skipWs input with
      | [] => none
      | c :: cs =>
          if c = rbrack then some (.arr [], cs)
          else
            match parseValue fuel (c :: cs) with
            | none => none
            | some (v, rest) => parseElemsAfter fuel [v] rest

/-- Array elements after at least one element has been read. -/
def parseElemsAfter : Nat → List Json → List Char → Option (Json × List Char)
  | 0, _, _ => none
  | fuel + 1, acc, input =>
      match skipWs input with
      | [] => none
      | c :: cs =>
          if c = rbrack then some (.arr acc, cs)
          else if c = ',' then
            match parseValue fuel cs with
            | none => none
            | some (v, rest) => parseElemsAfter fuel (acc ++ [v]) rest
          else none

end

/-- `json.loads`: parse the whole string as one JSON value; `none` models the
`json.JSONDecodeError` the Python parser raises on invalid input. -/
def json_loads (s : String) : Option Json :=
  match parseValue (s.length + 1) s.data with
  | some (v, rest) => if skipWs rest = [] then some v else none
  | none => none

/-- Canonical tool call (types.py `ChatToolCall`/`Function`): `arguments` is
always a parsed structured value, never encoded text. -/
structure Function where
  name : String
  arguments : Json

structure ChatToolCall where
  id : String
  function : Function

/-- A tool call in the vendor wire shape: `arguments` is encoded text. -/
structure WireToolCall where
  id : String
  name : String
  arguments : String

/-- The encoding direction of `OpenAIChatInputsAdapter._adapt_chat_choice`
(lines 39-43): `tool["function"]["arguments"] = str(tool["function"]["arguments"])`
— the structured arguments are stringified with Python `str()`. -/
def encodeToolCall (tc : ChatToolCall) : WireToolCall :=
  { id := tc.id, name := tc.function.name,
    arguments := pythonRepr tc.function.arguments }

/-- The decoding direction of `OpenAIChatResponseAdapter.__init__`
(line 94): `arguments=json.loads(tool.function.arguments)`. `none` models the
exception `json.loads` raises when the text is not valid JSON. -/
def decodeToolCall (w : WireToolCall) : Option ChatToolCall :=
  (json_loads w.arguments).map
    (fun args => { id := w.id, function := { name := w.name, arguments := args } })

/-- The intended encoding (what the vendor wire format actually is):
`json.dumps` instead of `str()`. Used to witness that the round trip is
recovered once the encoder emits JSON. -/
def encodeToolCallJson (tc : ChatToolCall) : WireToolCall :=
  { id := tc.id, name := tc.function.name,
    arguments := jsonDumps tc.function.arguments }

end OpenAIAdapter

namespace OpenAIAdapter

/-- Boolean list-prefix test, pattern first. -/
def leadsWith : List Char → List Char → Bool
  | [], _ => true
  | _ :: _, [] => false
  | p :: ps, c :: cs => if p = c then leadsWith ps cs else false

/-- Whether `s` starts with `pat`. -/
def strLeadsWith (s pat : String) : Bool :=
  leadsWith pat.data s.data

/-- Modelled from the spec: `is_url` from switchai/utils.py is not in src.
Per §6 an image reference is "either a fetchable URL string or a local file
path/bytes"; a fetchable URL is recognised by its scheme. -/
def is_url (s : String) : Bool :=
  strLeadsWith s "http://" || strLeadsWith s "https://"

/-- The base64 alphabet. -/
def base64Alphabet : List Char :=
  "ABCDEFGHIJKLMNOPQRSTUVWXYZabcdefghijklmnopqrstuvwxyz0123456789+/".data

def b64Char (n : Nat) : Char :=
  base64Alphabet.getD n '='

/-- Standard base64 of a byte list, with padding. -/
def base64Encode : List Nat → List Char
  | [] => []
  | [b1] => [b64Char (b1 / 4 % 64), b64Char (b1 % 4 * 16), '=', '=']
  | [b1, b2] =>
      [b64Char (b1 / 4 % 64), b64Char (b1 % 4 * 16 + b2 / 16),
       b64Char (b2 % 16 * 4), '=']
  | b1 :: b2 :: b3 :: rest =>
      b64Char (b1 / 4 % 64) :: b64Char (b1 % 4 * 16 + b2 / 16) ::
        b64Char (b2 % 16 * 4 + b3 / 64) :: b64Char (b3 % 64) :: base64Encode rest

/-- Modelled from the spec: `encode_image` from switchai/utils.py is not in
src. Per §4.3 "the raw image is base64-encoded and inlined as a data URI":
the raw bytes behind the local reference are read (the filesystem is the
oracle `readFile`) and base64-encoded. -/
def encode_image (readFile : String → List Nat) (image : String) : String :=
  String.mk (base64Encode (readFile image))

/-- The vendor wire shape produced for an image content item:
`{"type": "image_url", "image_url": {"url": u}}`, with the single inner
field flattened into `url`. -/
structure ImageUrlItem where
  type : String
  url : String
deriving Repr, DecidableEq

/-- `OpenAIChatInputsAdapter._adapt_image_content` (lines 65-70): a URL
reference is forwarded as-is, anything else is read, base64-encoded and
inlined as a `data:` URI. -/
def adapt_image_content (readFile : String → List Nat) (image : String) :
    ImageUrlItem :=
  if is_url image then
    { type := "image_url", url := image }
  else
    { type := "image_url",
      url := "data:image/jpeg;base64," ++ encode_image readFile image }

/-- The `tools` parameter as the vendor SDK receives it: the `NOT_GIVEN`
sentinel is distinct from every list, including the empty one. -/
inductive ToolsParam (α : Type) where
  | notGiven
  | given (tools : List α)
deriving Repr, DecidableEq

/-- `OpenAIChatInputsAdapter._adapt_tools` (lines 72-73):
`NOT_GIVEN if tools is None else tools`. -/
def adapt_tools {α : Type} (tools : Option (List α)) : ToolsParam α :=
  match tools with
  | none => .notGiven
  | some ts => .given ts

end OpenAIAdapter

namespace Browser

/-- Canonical tool-call function for the Browser claims. The `get_website`
tool's JSON schema declares a single string property `url`, so the argument
mappings exercised here are string-valued. -/
structure Function where
  name : String
  arguments : List (String × String)
deriving Repr, DecidableEq

structure ChatToolCall where
  id : String
  function : Function
deriving Repr, DecidableEq

structure ChatMessage where
  role : String
  content : Option String
deriving Repr, DecidableEq

structure ChatChoice where
  index : Nat
  message : ChatMessage
  tool_calls : Option (List ChatToolCall)
  finish_reason : Option String
deriving Repr, DecidableEq

structure ChatUsage where
  input_tokens : Nat
  output_tokens : Nat
  total_tokens : Nat
deriving Repr, DecidableEq

structure ChatResponse where
  id : String
  object : String
  model : String
  usage : ChatUsage
  choices : List ChatChoice
deriving Repr, DecidableEq

/-- An element of the polymorphic `messages` list: plain text, a prior
`ChatChoice`, or a role/content dict (the appended tool message carries
`tool_call_id` and `tool_name`). -/
inductive MessageInput where
  | text (s : String)
  | choice (c : ChatChoice)
  | dict (role : String) (content : String)
      (tool_call_id : Option String) (tool_name : Option String)
deriving Repr, DecidableEq

/-- An OpenAI-style function tool declaration. -/
structure ToolDef where
  type : String
  name : String
  description : String
  parameters : OpenAIAdapter.Json

/-- The synthetic tool Browser.chat appends (browser.py lines 58-72). -/
def getWebsiteTool : ToolDef :=
  { type := "function", name := "get_website",
    description := "Get the content of a website.",
    parameters := .obj
      [("type", .str "object"),
       ("properties", .obj
         [("url", .obj
           [("type", .str "string"),
            ("description", .str "The URL of the website to get.")])])] }

/-- Outcome of the `httpx` GET inside `fetch_website`:
a 2xx body, a `httpx.RequestError`, a non-2xx status (which
`raise_for_status` turns into `httpx.HTTPStatusError`), or any other
exception raised during the fetch. -/
inductive HttpResult where
  | success (content : String)
  | requestError (msg : String)
  | statusError (code : Nat)
  | otherError (msg : String)
deriving Repr, DecidableEq

/-- `fetch_website` (browser.py lines 11-26): total — every failure of the
GET is converted to a descriptive string (`URL(...)` is how the fetch
library's URL object prints inside the f-strings). -/
def fetch_website (get : String → HttpResult) (url : String) : String :=
  match get url with
  | .success content => content
  | .requestError msg =>
      "An error occurred while requesting URL(" ++ OpenAIAdapter.squoteS ++ url ++
        OpenAIAdapter.squoteS ++ "): " ++ msg
  | .statusError code =>
      "Error response " ++ toString code ++ " while requesting URL(" ++
        OpenAIAdapter.squoteS ++ url ++ OpenAIAdapter.squoteS ++ ")"
  | .otherError msg => "An unexpected error occurred: " ++ msg

/-- The tool message appended for a `get_website` call (browser.py
lines 83-90). -/
def toolMessage (get : String → HttpResult) (tc : ChatToolCall) (u : String) :
    MessageInput :=
  .dict "tool" (fetch_website get u) (some tc.id) (some tc.function.name)

/-- The tool-call loop (browser.py lines 79-90): for each call named
`get_website`, `fetch_website(**function_args)` is invoked and a tool
message appended; other call names are skipped. A keyword set other than
exactly `url` makes the `**`-application raise `TypeError`, which nothing
catches: `none`. -/
def processToolCalls (get : String → HttpResult) :
    List MessageInput → List String → List ChatToolCall →
    Option (List MessageInput × List String)
  | msgs, urls, [] => some (msgs, urls)
  | msgs, urls, tc :: rest =>
      if tc.function.name = "get_website" then
        match tc.function.arguments with
        | [(k, u)] =>
            if k = "url" then
              processToolCalls get (msgs ++ [toolMessage get tc u]) (urls ++ [u]) rest
            else none
        | _ => none
      else processToolCalls get msgs urls rest

/-- One recorded call to the wrapped client's `chat`: the message list passed
and the `tools` argument (`none` = parameter omitted, defaulting to `None`). -/
structure ChatCall where
  messages : List MessageInput
  tools : Option (List ToolDef)

/-- The exceptions Browser.chat can raise: the `ValueError` for
caller-supplied tools (line 56), the `IndexError` of `choices[0]` on an
empty choice list (line 76), and the `TypeError` of a malformed
`**function_args` application (line 82). -/
inductive BrowserError where
  | toolsNotAllowed
  | choicesIndexError
  | toolArgumentsTypeError
deriving Repr, DecidableEq

/-- What a Browser.chat call leaves behind. `finalMessages` and `finalTools`
are the contents of the caller-owned `messages` and `tools` lists after the
call (the Python code extends both in place); `calls` records each call made
to the wrapped client's `chat`, `fetchedUrls` each URL fetched over HTTP. -/
structure BrowserOutcome where
  result : ChatResponse
  finalMessages : List MessageInput
  finalTools : List ToolDef
  calls : List ChatCall
  fetchedUrls : List String

/-- `Browser.chat` (browser.py lines 43-94). `clientChat` is the wrapped
client's `chat` as an oracle taking the message list and the tools argument;
`temperature`, `max_tokens` and `n` are forwarded unchanged to both calls and
held constant by the oracle. The first call passes the tools list with the
injected `get_website` tool; when the first choice's tool calls are truthy
(neither `None` nor empty) the tool loop runs and a second call is issued
with the tools parameter omitted. -/
def browserChat
    (clientChat : List MessageInput → Option (List ToolDef) → ChatResponse)
    (get : String → HttpResult)
    (messages : List MessageInput) (tools : Option (List ToolDef)) :
    Except BrowserError BrowserOutcome :=
  let tools0 := tools.getD []
  if tools0.length > 0 then .error .toolsNotAllowed
  else
    let tools1 := tools0 ++ [getWebsiteTool]
    let firstResponse := clientChat messages (some tools1)
    match firstResponse.choices with
    | [] => .error .choicesIndexError
    | choice0 :: _ =>
        match choice0.tool_calls with
        | some (tc :: tcs) =>
            let messages1 := messages ++ [.choice choice0]
            match processToolCalls get messages1 [] (tc :: tcs) with
            | none => .error .toolArgumentsTypeError
            | some (messages2, urls) =>
                .ok { result := clientChat messages2 none,
                      finalMessages := messages2,
                      finalTools := tools1,
                      calls := [{ messages := messages, tools := some tools1 },
                                { messages := messages2, tools := none }],
                      fetchedUrls := urls }
        | _ =>
            .ok { result := firstResponse,
                  finalMessages := messages,
                  finalTools := tools1,
                  calls := [{ messages := messages, tools := some tools1 }],
                  fetchedUrls := [] }

end Browser
open SwitchAICore in
/-- C1: for a client whose model category was fixed at construction, each of
the four operations (chat, embed, transcribe, generate_image) raises a
category-mismatch error iff the client's category differs from that
operation's category; when the category matches, the call passes the gate
and is forwarded to the provider adapter with identical arguments. -/
theorem C1_category_gate {α β : Type} (c : SwitchAI) (f : α → β) (args : α) :
    (c.chat f args = .error (.categoryMismatch c.modelName "chat") ↔
        c.modelCategory ≠ "chat") ∧
    (c.chat f args = .ok (f args) ↔ c.modelCategory = "chat") ∧
    (c.embed f args = .error (.categoryMismatch c.modelName "embed") ↔
        c.modelCategory ≠ "embed") ∧
    (c.embed f args = .ok (f args) ↔ c.modelCategory = "embed") ∧
    (c.transcribe f args = .error (.categoryMismatch c.modelName "transcribe") ↔
        c.modelCategory ≠ "transcribe") ∧
    (c.transcribe f args = .ok (f args) ↔ c.modelCategory = "transcribe") ∧
    (c.generate_image f args =
        .error (.categoryMismatch c.modelName "generate_image") ↔
        c.modelCategory ≠ "generate_image") ∧
    (c.generate_image f args = .ok (f args) ↔ c.modelCategory = "generate_image") := by
  refine ⟨?_, ?_, ?_, ?_, ?_, ?_, ?_, ?_⟩ <;>
    simp [SwitchAI.chat, SwitchAI.embed, SwitchAI.transcribe,
          SwitchAI.generate_image, ite_eq_iff]

open SwitchAICore in
/-- C1 witness: a concrete chat-category client passes the chat gate with its
arguments forwarded intact and fails the other three gates. -/
theorem C1_category_gate_witness :
    (SwitchAI.chat ⟨"openai", "gpt-4o", "sk-test", "chat"⟩ (fun n => n + 1) 41 =
        .ok 42) ∧
    (SwitchAI.embed ⟨"openai", "gpt-4o", "sk-test", "chat"⟩ (fun n => n + 1) 41 =
        .error (.categoryMismatch "gpt-4o" "embed")) ∧
    (SwitchAI.transcribe ⟨"openai", "gpt-4o", "sk-test", "chat"⟩ (fun n => n + 1) 41 =
        .error (.categoryMismatch "gpt-4o" "transcribe")) ∧
    (SwitchAI.generate_image ⟨"openai", "gpt-4o", "sk-test", "chat"⟩ (fun n => n + 1) 41 =
        .error (.categoryMismatch "gpt-4o" "generate_image")) := by
  obtain ⟨h1, h2, h3, h4, h5, h6, h7, h8⟩ :=
    C1_category_gate ⟨"openai", "gpt-4o", "sk-test", "chat"⟩ (fun n => n + 1) 41
  exact ⟨h2.mpr rfl, h3.mpr (by decide), h5.mpr (by decide), h7.mpr (by decide)⟩
namespace OpenAIAdapter

/-- A representative structured arguments mapping for a tool call. -/
def exampleArguments : Json := .obj [("url", .str "https://example.com")]

def exampleToolCall : ChatToolCall :=
  { id := "call_1",
    function := { name := "get_website", arguments := exampleArguments } }

end OpenAIAdapter

open OpenAIAdapter in
/-- C2: at the concrete mapping with the single pair url → https://example.com,
the round trip through the code fails: `_adapt_chat_choice` encodes the
structured arguments with Python `str()`, producing a single-quoted repr that
the `json.loads` in `OpenAIChatResponseAdapter` rejects, so decoding raises
instead of returning the original mapping. Encoding with `json.dumps` (the
vendor's actual wire encoding, and the evident intent) makes the round trip
return the original mapping unchanged. -/
theorem C2_roundtrip_fails_at_concrete_input :
    decodeToolCall (encodeToolCall exampleToolCall) = none ∧
    decodeToolCall (encodeToolCallJson exampleToolCall) = some exampleToolCall := by
  exact ⟨rfl, rfl⟩
namespace SwitchAICore

/-- A concrete provider module used to instantiate the universally
quantified resolution theorems. -/
def openaiModule : ProviderModule :=
  { name := "openai",
    supportedModels := [("chat", ["gpt-4o"]), ("embed", ["text-embedding-3-small"])],
    apiKeyNaming := "OPENAI_API_KEY" }

end SwitchAICore

open SwitchAICore in
/-- C3 counterexample: with no explicit api_key and the provider's
environment variable set to the empty string, construction does not raise a
missing-credential error — `os.environ.get` returns the empty string, which
is not `None`, so the empty string is accepted as the credential, contrary to
the claim that an empty environment variable counts as missing. -/
theorem C3_empty_env_not_missing :
    getProviderClient [openaiModule] "openai" "gpt-4o" none
      (fun n => if n = "OPENAI_API_KEY" then some "" else none) =
      .ok ("", "chat") := by
  rfl

open SwitchAICore in
/-- C3 amended: for a registered provider and a model it declares,
construction fails with a missing-credential error iff no explicit api_key is
supplied and the designated environment variable is absent; an empty-string
environment value counts as present and is used as the key. When an explicit
api_key is supplied the environment is never consulted. -/
theorem C3_credential_resolution (registry : List ProviderModule)
    (provider model : String) (pm : ProviderModule) (category : String)
    (hfind : registry.find? (fun q => q.name = provider) = some pm)
    (hcat : findCategory pm.supportedModels model = some category) :
    (∀ env, getProviderClient registry provider model none env =
        .error (.missingCredential pm.apiKeyNaming) ↔ env pm.apiKeyNaming = none) ∧
    (∀ env, env pm.apiKeyNaming = some "" →
        getProviderClient registry provider model none env = .ok ("", category)) ∧
    (∀ k env, getProviderClient registry provider model (some k) env =
        .ok (k, category)) ∧
    (∀ k env₁ env₂,
        getProviderClient registry provider model (some k) env₁ =
        getProviderClient registry provider model (some k) env₂) := by
  refine ⟨?_, ?_, ?_, ?_⟩
  · intro env
    cases henv : env pm.apiKeyNaming <;>
      simp [getProviderClient, hfind, hcat, henv]
  · intro env henv
    simp [getProviderClient, hfind, hcat, henv]
  · intro k env
    simp [getProviderClient, hfind, hcat]
  · intro k env₁ env₂
    simp [getProviderClient, hfind, hcat]

open SwitchAICore in
/-- C3 witness: at a concrete registry, an absent environment variable with
no explicit key is a missing-credential error, an empty-string variable
resolves to the empty key, and an explicit key wins regardless of the
environment. -/
theorem C3_credential_resolution_witness :
    (getProviderClient [openaiModule] "openai" "gpt-4o" none (fun _ => none) =
        .error (.missingCredential "OPENAI_API_KEY")) ∧
    (getProviderClient [openaiModule] "openai" "gpt-4o" none
        (fun _ => some "") = .ok ("", "chat")) ∧
    (getProviderClient [openaiModule] "openai" "gpt-4o" (some "sk-1")
        (fun _ => some "env-key") = .ok ("sk-1", "chat")) := by
  obtain ⟨h1, h2, h3, _⟩ :=
    C3_credential_resolution [openaiModule] "openai" "gpt-4o" openaiModule
      "chat" rfl rfl
  exact ⟨(h1 (fun _ => none)).mpr rfl, h2 (fun _ => some "") rfl,
         h3 "sk-1" (fun _ => some "env-key")⟩
namespace SwitchAICore

/-- `findCategory` succeeds exactly when some category's model list declares
the model — the shape of `any(self.model_name in models for models in
SUPPORTED_MODELS.values())`. -/
theorem findCategory_isSome_iff (supported : List (String × List String))
    (model : String) :
    (findCategory supported model).isSome ↔
      ∃ category models, (category, models) ∈ supported ∧ model ∈ models := by
  induction supported with
  | nil => simp [findCategory]
  | cons head rest ih =>
      obtain ⟨category, models⟩ := head
      by_cases h : model ∈ models
      · simp only [findCategory, if_pos h, Option.isSome_some, true_iff]
        exact ⟨category, models, List.mem_cons_self _ _, h⟩
      · simp only [findCategory, if_neg h, ih]
        constructor
        · rintro ⟨c, ms, hmem, hmodel⟩
          exact ⟨c, ms, List.mem_cons_of_mem _ hmem, hmodel⟩
        · rintro ⟨c, ms, hmem, hmodel⟩
          rcases List.mem_cons.mp hmem with heq | hmem2
          · obtain ⟨rfl, rfl⟩ := Prod.mk.injEq .. ▸ heq
            exact absurd hmodel h
          · exact ⟨c, ms, hmem2, hmodel⟩

/-- The list comprehension at main_client.py lines 53-60: the registered
providers that declare the model, in registry order. -/
def alternativeProvidersFor (registry : List ProviderModule) (model : String) :
    List String :=
  (registry.filter
    (fun q => (findCategory q.supportedModels model).isSome)).map (·.name)

/-- Membership in the alternatives list is exactly being the name of a
registered provider that declares the model under some category. -/
theorem mem_alternativeProvidersFor (registry : List ProviderModule)
    (model : String) (name : String) :
    name ∈ alternativeProvidersFor registry model ↔
      ∃ q ∈ registry, q.name = name ∧
        ∃ category models, (category, models) ∈ q.supportedModels ∧ model ∈ models := by
  simp only [alternativeProvidersFor, List.mem_map, List.mem_filter]
  constructor
  · rintro ⟨q, ⟨hq, hsome⟩, rfl⟩
    exact ⟨q, hq, rfl, (findCategory_isSome_iff _ _).mp hsome⟩
  · rintro ⟨q, hq, rfl, hdecl⟩
    exact ⟨q, ⟨hq, (findCategory_isSome_iff _ _).mpr hdecl⟩, rfl⟩

end SwitchAICore

open SwitchAICore in
/-- C4: for a registered provider that does not declare the model,
construction fails with an unsupported-model error; when at least one other
registered provider declares the model, the error names exactly the
registered providers declaring it, and otherwise the error reports the model
as unsupported by any provider. -/
theorem C4_unsupported_model (registry : List ProviderModule)
    (provider model : String) (pm : ProviderModule)
    (apiKey : Option String) (env : String → Option String)
    (hfind : registry.find? (fun q => q.name = provider) = some pm)
    (hcat : findCategory pm.supportedModels model = none) :
    (alternativeProvidersFor registry model ≠ [] →
        getProviderClient registry provider model apiKey env =
          .error (.unsupportedModel model provider
            (alternativeProvidersFor registry model))) ∧
    (alternativeProvidersFor registry model = [] →
        getProviderClient registry provider model apiKey env =
          .error (.unsupportedModelAnywhere model)) ∧
    (∀ name, name ∈ alternativeProvidersFor registry model ↔
        ∃ q ∈ registry, q.name = name ∧
          ∃ category models, (category, models) ∈ q.supportedModels ∧ model ∈ models) := by
  refine ⟨?_, ?_, fun name => mem_alternativeProvidersFor registry model name⟩
  · intro halts
    simp [getProviderClient, hfind, hcat, alternativeProvidersFor] at halts ⊢
    simp [halts]
  · intro halts
    simp [getProviderClient, hfind, hcat, alternativeProvidersFor] at halts ⊢
    exact halts

open SwitchAICore in
/-- C4 witness: a registry in which a second provider declares the model
yields the error naming exactly that provider, and a model declared nowhere
yields the unsupported-everywhere error. -/
theorem C4_unsupported_model_witness :
    (getProviderClient
        [{ name := "mistral", supportedModels := [("chat", ["mistral-large"])],
           apiKeyNaming := "MISTRAL_API_KEY" }, openaiModule]
        "mistral" "gpt-4o" none (fun _ => none) =
      .error (.unsupportedModel "gpt-4o" "mistral" ["openai"])) ∧
    (getProviderClient [openaiModule] "openai" "no-such-model" none
        (fun _ => none) = .error (.unsupportedModelAnywhere "no-such-model")) := by
  constructor
  · exact (C4_unsupported_model
      [{ name := "mistral", supportedModels := [("chat", ["mistral-large"])],
         apiKeyNaming := "MISTRAL_API_KEY" }, openaiModule]
      "mistral" "gpt-4o"
      { name := "mistral", supportedModels := [("chat", ["mistral-large"])],
        apiKeyNaming := "MISTRAL_API_KEY" }
      none (fun _ => none) rfl rfl).1 (by decide)
  · exact (C4_unsupported_model [openaiModule] "openai" "no-such-model"
      openaiModule none (fun _ => none) rfl rfl).2.1 (by decide)
open SwitchAICore in
/-- C9: provider matching is case-insensitive (construction depends only on
the lowercased provider string), and for a provider string whose
normalisation matches no registered provider, construction fails with an
unknown-provider error whose alternative list is exactly the registered
provider names. -/
theorem C9_unknown_provider (registry : List ProviderModule)
    (provider model : String) (apiKey : Option String)
    (env : String → Option String)
    (hnotin : pyLower provider ∉ registry.map (·.name)) :
    (SwitchAI.construct registry provider model apiKey env =
        .error (.unknownProvider (pyLower provider) (registry.map (·.name)))) ∧
    (∀ p q : String, pyLower p = pyLower q →
        SwitchAI.construct registry p model apiKey env =
        SwitchAI.construct registry q model apiKey env) ∧
    (∀ name, name ∈ registry.map (·.name) ↔ ∃ pm ∈ registry, pm.name = name) := by
  refine ⟨?_, ?_, ?_⟩
  · have hfind : registry.find? (fun q => q.name = pyLower provider) = none := by
      rw [List.find?_eq_none]
      intro pm hpm
      simp only [decide_eq_true_eq]
      intro heq
      exact hnotin (heq ▸ List.mem_map_of_mem (·.name) hpm)
    simp [SwitchAI.construct, getProviderClient, hfind, Except.map]
  · intro p q hpq
    simp [SwitchAI.construct, hpq]
  · intro name
    simp [List.mem_map]

open SwitchAICore in
/-- C9 witness: the provider name Foo (lowercased to foo) is not registered,
so construction fails listing exactly the registered provider names. -/
theorem C9_unknown_provider_witness :
    SwitchAI.construct [openaiModule] "Foo" "gpt-4o" none (fun _ => none) =
      .error (.unknownProvider "foo" ["openai"]) := by
  have h := (C9_unknown_provider [openaiModule] "Foo" "gpt-4o" none
    (fun _ => none) (by decide)).1
  rw [show pyLower "Foo" = "foo" from by decide] at h
  exact h
namespace OpenAIAdapter

/-- An empty pattern is a prefix of anything. -/
theorem leadsWith_append (p rest : List Char) : leadsWith p (p ++ rest) = true := by
  induction p with
  | nil => rfl
  | cons a as ih => simpa [leadsWith] using ih

/-- Mismatching heads refute the prefix test. -/
theorem leadsWith_cons_ne (b c : Char) (bs cs : List Char) (h : b ≠ c) :
    leadsWith (b :: bs) (c :: cs) = false := by
  rw [leadsWith, if_neg h]

/-- A successful prefix test pins down the head of the scanned list. -/
theorem leadsWith_cons_dest (a : Char) (as l : List Char)
    (h : leadsWith (a :: as) l = true) : ∃ tail, l = a :: tail := by
  cases l with
  | nil => simp [leadsWith] at h
  | cons c cs =>
      rw [leadsWith] at h
      by_cases hac : a = c
      · exact ⟨cs, by rw [hac]⟩
      · rw [if_neg hac] at h
        cases h

/-- The data-URI prefix produced by the non-URL branch. -/
def dataUriPrefix : String := "data:image/jpeg;base64,"

/-- Every string of the non-URL branch's shape starts with the data-URI
prefix. -/
theorem strLeadsWith_dataUri (rest : String) :
    strLeadsWith (dataUriPrefix ++ rest) dataUriPrefix = true := by
  rw [strLeadsWith, String.data_append]
  exact leadsWith_append dataUriPrefix.data rest.data

/-- A string of the non-URL branch's shape is not itself a URL. -/
theorem is_url_dataUri (rest : String) :
    is_url (dataUriPrefix ++ rest) = false := by
  have hd : (dataUriPrefix ++ rest).data =
      'd' :: ("ata:image/jpeg;base64,".data ++ rest.data) := by
    rw [String.data_append]
    rfl
  simp only [is_url, strLeadsWith, hd, Bool.or_eq_false_iff]
  exact ⟨leadsWith_cons_ne 'h' 'd' _ _ (by decide),
         leadsWith_cons_ne 'h' 'd' _ _ (by decide)⟩

/-- A URL does not start with the data-URI prefix. -/
theorem not_dataUri_of_is_url (s : String) (h : is_url s = true) :
    strLeadsWith s dataUriPrefix = false := by
  rcases Bool.or_eq_true_iff.mp (by simpa [is_url] using h) with h1 | h1
  all_goals
    obtain ⟨tail, htail⟩ := leadsWith_cons_dest _ _ _ h1
    rw [strLeadsWith, htail]
    exact leadsWith_cons_ne 'd' 'h' _ _ (by decide)

end OpenAIAdapter

open OpenAIAdapter in
/-- C5: the adapter forwards the image reference as-is exactly when it is a
URL, and otherwise emits a base64 data URI of the raw image bytes; the URL
path never produces a data URI, the data path always does, and the data
path's output is never a URL — the two paths cannot cross. -/
theorem C5_image_content_dichotomy (readFile : String → List Nat)
    (image : String) :
    (is_url image = true →
        adapt_image_content readFile image =
          { type := "image_url", url := image } ∧
        strLeadsWith (adapt_image_content readFile image).url dataUriPrefix =
          false) ∧
    (is_url image = false →
        adapt_image_content readFile image =
          { type := "image_url",
            url := dataUriPrefix ++ encode_image readFile image } ∧
        strLeadsWith (adapt_image_content readFile image).url dataUriPrefix =
          true ∧
        is_url (adapt_image_content readFile image).url = false) := by
  constructor
  · intro h
    have hout : adapt_image_content readFile image =
        { type := "image_url", url := image } := by
      simp [adapt_image_content, h]
    exact ⟨hout, by rw [hout]; exact not_dataUri_of_is_url image h⟩
  · intro h
    have hout : adapt_image_content readFile image =
        { type := "image_url",
          url := dataUriPrefix ++ encode_image readFile image } := by
      simp [adapt_image_content, h, dataUriPrefix]
    exact ⟨hout, by rw [hout]; exact strLeadsWith_dataUri _,
           by rw [hout]; exact is_url_dataUri _⟩

open OpenAIAdapter in
/-- C5 witness: a concrete URL is forwarded as-is; a concrete local path is
inlined as a base64 data URI of its bytes. -/
theorem C5_image_content_dichotomy_witness :
    (adapt_image_content (fun _ => [77, 97]) "http://img.example/x.jpg" =
      { type := "image_url", url := "http://img.example/x.jpg" }) ∧
    (adapt_image_content (fun _ => [77, 97]) "photos/cat.jpg" =
      { type := "image_url", url := "data:image/jpeg;base64,TWE=" }) := by
  constructor
  · exact ((C5_image_content_dichotomy (fun _ => [77, 97])
      "http://img.example/x.jpg").1 (by decide)).1
  · have h := ((C5_image_content_dichotomy (fun _ => [77, 97])
      "photos/cat.jpg").2 (by decide)).1
    rw [h]
    rfl
open OpenAIAdapter in
/-- C8: absent tools (`None`) map to the vendor's NOT_GIVEN sentinel and
never to any list — in particular not to the empty list — while supplied
tools pass through unchanged and never collapse to the sentinel. -/
theorem C8_tools_sentinel {α : Type} (ts : List α) :
    (adapt_tools (none : Option (List α)) = .notGiven) ∧
    (adapt_tools (some ts) = .given ts) ∧
    (∀ us : List α, adapt_tools (none : Option (List α)) ≠ .given us) ∧
    (adapt_tools (some ts) ≠ .notGiven) := by
  refine ⟨rfl, rfl, ?_, ?_⟩
  · intro us h
    exact ToolsParam.noConfusion h
  · intro h
    exact ToolsParam.noConfusion h
namespace Browser

/-- Well-formed arguments for the injected tool: a call named `get_website`
binds exactly the keyword `url`. -/
def wfGetWebsiteArgs (tc : ChatToolCall) : Prop :=
  tc.function.name = "get_website" → ∃ u, tc.function.arguments = [("url", u)]

/-- The tool messages the loop appends, one per `get_website` call, in call
order. -/
def toolMessagesFor (get : String → HttpResult) : List ChatToolCall →
    List MessageInput
  | [] => []
  | tc :: rest =>
      if tc.function.name = "get_website" then
        match tc.function.arguments with
        | [(_, u)] => toolMessage get tc u :: toolMessagesFor get rest
        | _ => toolMessagesFor get rest
      else toolMessagesFor get rest

/-- The URLs the loop fetches, one per `get_website` call, in call order. -/
def gwUrlsFor : List ChatToolCall → List String
  | [] => []
  | tc :: rest =>
      if tc.function.name = "get_website" then
        match tc.function.arguments with
        | [(_, u)] => u :: gwUrlsFor rest
        | _ => gwUrlsFor rest
      else gwUrlsFor rest

/-- On well-formed tool calls the loop never raises and appends exactly the
expected tool messages and fetched URLs. -/
theorem processToolCalls_eq (get : String → HttpResult)
    (tcs : List ChatToolCall) (h : ∀ tc ∈ tcs, wfGetWebsiteArgs tc) :
    ∀ msgs urls, processToolCalls get msgs urls tcs =
      some (msgs ++ toolMessagesFor get tcs, urls ++ gwUrlsFor tcs) := by
  induction tcs with
  | nil => intro msgs urls; simp [processToolCalls, toolMessagesFor, gwUrlsFor]
  | cons tc rest ih =>
      intro msgs urls
      have htc := h tc (List.mem_cons_self _ _)
      have hrest := fun tc2 h2 => h tc2 (List.mem_cons_of_mem _ h2)
      by_cases hname : tc.function.name = "get_website"
      · obtain ⟨u, hargs⟩ := htc hname
        rw [processToolCalls, toolMessagesFor, gwUrlsFor, if_pos hname,
            if_pos hname, if_pos hname, hargs]
        simp [ih hrest]
      · rw [processToolCalls, toolMessagesFor, gwUrlsFor, if_neg hname,
            if_neg hname, if_neg hname]
        exact ih hrest msgs urls

/-- Each well-formedly argued `get_website` call contributes its tool message
(tool role, fetched-or-error content, the originating call's id and name). -/
theorem mem_toolMessagesFor (get : String → HttpResult)
    (tcs : List ChatToolCall) (tc : ChatToolCall) (htc : tc ∈ tcs)
    (u : String) (hname : tc.function.name = "get_website")
    (hargs : tc.function.arguments = [("url", u)]) :
    MessageInput.dict "tool" (fetch_website get u) (some tc.id)
      (some tc.function.name) ∈ toolMessagesFor get tcs := by
  induction tcs with
  | nil => cases htc
  | cons head rest ih =>
      rcases List.mem_cons.mp htc with rfl | hmem
      · rw [toolMessagesFor, if_pos hname, hargs]
        exact List.mem_cons_self _ _
      · rw [toolMessagesFor]
        by_cases hh : head.function.name = "get_website"
        · rw [if_pos hh]
          match hm : head.function.arguments with
          | [(_, v)] => exact List.mem_cons_of_mem _ (ih hmem)
          | [] => exact ih hmem
          | (_ :: _ :: _) => exact ih hmem
        · rw [if_neg hh]
          exact ih hmem

/-- The loop appends exactly one tool message per `get_website` call. -/
theorem toolMessagesFor_length (get : String → HttpResult)
    (tcs : List ChatToolCall) (h : ∀ tc ∈ tcs, wfGetWebsiteArgs tc) :
    (toolMessagesFor get tcs).length =
      (tcs.filter (fun tc => tc.function.name = "get_website")).length := by
  induction tcs with
  | nil => rfl
  | cons tc rest ih =>
      have htc := h tc (List.mem_cons_self _ _)
      have hrest := fun tc2 h2 => h tc2 (List.mem_cons_of_mem _ h2)
      by_cases hname : tc.function.name = "get_website"
      · obtain ⟨u, hargs⟩ := htc hname
        rw [toolMessagesFor, if_pos hname, hargs]
        simp [List.filter, hname, ih hrest]
      · rw [toolMessagesFor, if_neg hname]
        simp [List.filter, hname, ih hrest]

end Browser
open Browser in
/-- C6: when the first chat response's first choice carries zero tool calls
(whether `None` or an empty list, both falsy at the Python gate),
Browser.chat returns that first response unmodified, fetches no URL, issues
exactly one chat call, and leaves the caller's message list unchanged. -/
theorem C6_no_tool_calls_passthrough
    (clientChat : List MessageInput → Option (List ToolDef) → ChatResponse)
    (get : String → HttpResult) (messages : List MessageInput)
    (tools : Option (List ToolDef)) (htools : tools.getD [] = [])
    (choice0 : ChatChoice) (restChoices : List ChatChoice)
    (hchoices : (clientChat messages (some [getWebsiteTool])).choices =
        choice0 :: restChoices)
    (hnone : choice0.tool_calls = none ∨ choice0.tool_calls = some []) :
    browserChat clientChat get messages tools =
      .ok { result := clientChat messages (some [getWebsiteTool]),
            finalMessages := messages,
            finalTools := [getWebsiteTool],
            calls := [{ messages := messages, tools := some [getWebsiteTool] }],
            fetchedUrls := [] } := by
  rw [browserChat]
  rcases hnone with h | h <;>
    simp only [htools, List.length_nil, List.nil_append, gt_iff_lt,
      lt_irrefl, if_false, hchoices, h]

open Browser in
/-- C6 witness: at a concrete oracle answering with a tool-call-free choice,
Browser.chat returns the oracle's first response with one chat call and no
fetch. -/
theorem C6_no_tool_calls_passthrough_witness :
    browserChat
      (fun _ _ => { id := "r1", object := "chat.completion", model := "m",
                    usage := { input_tokens := 1, output_tokens := 2, total_tokens := 3 },
                    choices := [{ index := 0,
                                  message := { role := "assistant", content := some "hi" },
                                  tool_calls := none,
                                  finish_reason := some "stop" }] })
      (fun _ => .success "body") [.text "Hello"] none =
      .ok { result := { id := "r1", object := "chat.completion", model := "m",
                        usage := { input_tokens := 1, output_tokens := 2, total_tokens := 3 },
                        choices := [{ index := 0,
                                      message := { role := "assistant", content := some "hi" },
                                      tool_calls := none,
                                      finish_reason := some "stop" }] },
            finalMessages := [.text "Hello"],
            finalTools := [getWebsiteTool],
            calls := [{ messages := [.text "Hello"], tools := some [getWebsiteTool] }],
            fetchedUrls := [] } := by
  exact C6_no_tool_calls_passthrough
    (fun _ _ => { id := "r1", object := "chat.completion", model := "m",
                  usage := { input_tokens := 1, output_tokens := 2, total_tokens := 3 },
                  choices := [{ index := 0,
                                message := { role := "assistant", content := some "hi" },
                                tool_calls := none,
                                finish_reason := some "stop" }] })
    (fun _ => .success "body") [.text "Hello"] none rfl
    { index := 0, message := { role := "assistant", content := some "hi" },
      tool_calls := none, finish_reason := some "stop" }
    [] rfl (Or.inl rfl)
open Browser OpenAIAdapter in
/-- C7: a `get_website` tool call whose URL fetch fails never raises to the
caller — the failure becomes a descriptive string (one of the three
except-branch messages), is appended to the history as a tool-role message
carrying the originating call's id, and a second chat call is issued with
the tools parameter omitted. -/
theorem C7_fetch_error_contained
    (clientChat : List MessageInput → Option (List ToolDef) → ChatResponse)
    (get : String → HttpResult) (messages : List MessageInput)
    (tools : Option (List ToolDef)) (htools : tools.getD [] = [])
    (choice0 : ChatChoice) (restChoices : List ChatChoice)
    (hchoices : (clientChat messages (some [getWebsiteTool])).choices =
        choice0 :: restChoices)
    (tc0 : Browser.ChatToolCall) (tcs : List Browser.ChatToolCall)
    (hcalls : choice0.tool_calls = some (tc0 :: tcs))
    (hwf : ∀ tc2 ∈ tc0 :: tcs, wfGetWebsiteArgs tc2)
    (tc : Browser.ChatToolCall) (htc : tc ∈ tc0 :: tcs) (u : String)
    (hname : tc.function.name = "get_website")
    (hargs : tc.function.arguments = [("url", u)])
    (hfail : ∀ content, get u ≠ HttpResult.success content) :
    browserChat clientChat get messages tools =
      .ok { result := clientChat (messages ++ MessageInput.choice choice0 ::
                toolMessagesFor get (tc0 :: tcs)) none,
            finalMessages := messages ++ MessageInput.choice choice0 ::
                toolMessagesFor get (tc0 :: tcs),
            finalTools := [getWebsiteTool],
            calls := [{ messages := messages, tools := some [getWebsiteTool] },
                      { messages := messages ++ MessageInput.choice choice0 ::
                          toolMessagesFor get (tc0 :: tcs), tools := none }],
            fetchedUrls := gwUrlsFor (tc0 :: tcs) } ∧
    MessageInput.dict "tool" (fetch_website get u) (some tc.id)
        (some "get_website") ∈
      messages ++ MessageInput.choice choice0 :: toolMessagesFor get (tc0 :: tcs) ∧
    ((∃ msg, get u = .requestError msg ∧
        fetch_website get u = "An error occurred while requesting URL(" ++
          squoteS ++ u ++ squoteS ++ "): " ++ msg) ∨
     (∃ code, get u = .statusError code ∧
        fetch_website get u = "Error response " ++ toString code ++
          " while requesting URL(" ++ squoteS ++ u ++ squoteS ++ ")") ∨
     (∃ msg, get u = .otherError msg ∧
        fetch_website get u = "An unexpected error occurred: " ++ msg)) := by
  have hrun := processToolCalls_eq get (tc0 :: tcs) hwf
    (messages ++ [MessageInput.choice choice0]) []
  refine ⟨?_, ?_, ?_⟩
  · rw [browserChat]
    simp only [htools, List.length_nil, List.nil_append, gt_iff_lt, lt_irrefl,
      if_false, hchoices, hcalls, hrun, List.append_assoc, List.singleton_append]
  · have hmem := mem_toolMessagesFor get (tc0 :: tcs) tc htc u hname hargs
    rw [hname] at hmem
    exact List.mem_append_right _ (List.mem_cons_of_mem _ hmem)
  · cases hg : get u with
    | success c => exact absurd hg (hfail c)
    | requestError msg =>
        exact Or.inl ⟨msg, rfl, by simp only [fetch_website, hg]⟩
    | statusError code =>
        exact Or.inr (Or.inl ⟨code, rfl, by simp only [fetch_website, hg]⟩)
    | otherError msg =>
        exact Or.inr (Or.inr ⟨msg, rfl, by simp only [fetch_website, hg]⟩)

namespace Browser

/-- Concrete scenario for the C7 witness: one `get_website` call for a URL
that answers HTTP 404. -/
def c7ToolCall : ChatToolCall :=
  { id := "call_1",
    function := { name := "get_website", arguments := [("url", "http://x")] } }

def c7Choice : ChatChoice :=
  { index := 0, message := { role := "assistant", content := none },
    tool_calls := some [c7ToolCall], finish_reason := some "tool_calls" }

def c7FirstResp : ChatResponse :=
  { id := "r1", object := "chat.completion", model := "m",
    usage := { input_tokens := 1, output_tokens := 2, total_tokens := 3 },
    choices := [c7Choice] }

def c7SecondResp : ChatResponse :=
  { id := "r2", object := "chat.completion", model := "m",
    usage := { input_tokens := 4, output_tokens := 5, total_tokens := 9 },
    choices := [{ index := 0,
                  message := { role := "assistant", content := some "that page is missing" },
                  tool_calls := none, finish_reason := some "stop" }] }

/-- The wrapped client: answers with a tool call when tools are given, with
plain text on the tools-omitted second round. -/
def c7Chat : List MessageInput → Option (List ToolDef) → ChatResponse :=
  fun _ tools =>
    match tools with
    | some _ => c7FirstResp
    | none => c7SecondResp

def c7Get : String → HttpResult := fun _ => .statusError 404

end Browser

open Browser OpenAIAdapter in
/-- C7 witness: with the 404-answering fetch oracle, Browser.chat succeeds,
appends the tool message whose content is the 404-describing string with the
originating call id, and issues the second chat call with tools omitted. -/
theorem C7_fetch_error_contained_witness :
    browserChat c7Chat c7Get [.text "Hi"] none =
      .ok { result := c7SecondResp,
            finalMessages := [.text "Hi", .choice c7Choice,
              .dict "tool"
                ("Error response 404 while requesting URL(" ++ squoteS ++
                  "http://x" ++ squoteS ++ ")")
                (some "call_1") (some "get_website")],
            finalTools := [getWebsiteTool],
            calls := [{ messages := [.text "Hi"], tools := some [getWebsiteTool] },
                      { messages := [.text "Hi", .choice c7Choice,
                          .dict "tool"
                            ("Error response 404 while requesting URL(" ++ squoteS ++
                              "http://x" ++ squoteS ++ ")")
                            (some "call_1") (some "get_website")],
                        tools := none }],
            fetchedUrls := ["http://x"] } := by
  have h := (C7_fetch_error_contained c7Chat c7Get [.text "Hi"] none rfl
    c7Choice [] rfl c7ToolCall [] rfl
    (by rintro tc2 htc2
        rcases List.mem_singleton.mp htc2 with rfl
        intro _
        exact ⟨"http://x", rfl⟩)
    c7ToolCall (List.mem_singleton_self _) "http://x" rfl rfl
    (by intro c h; cases h)).1
  rw [h]
  rfl
open Browser in
/-- C10: Browser.chat mutates the caller-owned argument lists (modelled by
the final list contents in the outcome): with a caller-passed empty tools
list the synthetic get_website definition is appended to it, and when the
first response carries tool calls the caller's messages list is extended
with the assistant's ChatChoice followed by exactly one tool-role message
per get_website call; neither list is left unchanged. -/
theorem C10_caller_lists_mutated
    (clientChat : List MessageInput → Option (List ToolDef) → ChatResponse)
    (get : String → HttpResult) (messages : List MessageInput)
    (choice0 : ChatChoice) (restChoices : List ChatChoice)
    (hchoices : (clientChat messages (some [getWebsiteTool])).choices =
        choice0 :: restChoices)
    (tc0 : Browser.ChatToolCall) (tcs : List Browser.ChatToolCall)
    (hcalls : choice0.tool_calls = some (tc0 :: tcs))
    (hwf : ∀ tc2 ∈ tc0 :: tcs, wfGetWebsiteArgs tc2) :
    ∃ o : BrowserOutcome,
      browserChat clientChat get messages (some []) = .ok o ∧
      o.finalTools = [getWebsiteTool] ∧
      o.finalTools ≠ [] ∧
      o.finalMessages = messages ++ MessageInput.choice choice0 ::
        toolMessagesFor get (tc0 :: tcs) ∧
      o.finalMessages ≠ messages ∧
      (toolMessagesFor get (tc0 :: tcs)).length =
        ((tc0 :: tcs).filter
          (fun tc2 => tc2.function.name = "get_website")).length := by
  have hrun := processToolCalls_eq get (tc0 :: tcs) hwf
    (messages ++ [MessageInput.choice choice0]) []
  refine ⟨{ result := clientChat (messages ++ MessageInput.choice choice0 ::
              toolMessagesFor get (tc0 :: tcs)) none,
            finalMessages := messages ++ MessageInput.choice choice0 ::
              toolMessagesFor get (tc0 :: tcs),
            finalTools := [getWebsiteTool],
            calls := [{ messages := messages, tools := some [getWebsiteTool] },
                      { messages := messages ++ MessageInput.choice choice0 ::
                          toolMessagesFor get (tc0 :: tcs), tools := none }],
            fetchedUrls := gwUrlsFor (tc0 :: tcs) }, ?_, rfl, ?_, rfl, ?_, ?_⟩
  · rw [browserChat]
    simp only [Option.getD_some, List.length_nil, List.nil_append, gt_iff_lt,
      lt_irrefl, if_false, hchoices, hcalls, hrun, List.append_assoc,
      List.singleton_append]
  · intro h
    cases h
  · intro h
    have := congrArg List.length h
    simp at this
  · exact toolMessagesFor_length get (tc0 :: tcs) hwf

open Browser in
/-- C10 witness: the C7 scenario with an explicitly passed empty tools list —
afterwards the tools list holds the injected definition and the messages
list has grown by the ChatChoice and the tool message. -/
theorem C10_caller_lists_mutated_witness :
    ∃ o : BrowserOutcome,
      browserChat c7Chat c7Get [.text "Hi"] (some []) = .ok o ∧
      o.finalTools = [getWebsiteTool] ∧
      o.finalTools ≠ [] ∧
      o.finalMessages = [.text "Hi"] ++ MessageInput.choice c7Choice ::
        toolMessagesFor c7Get [c7ToolCall] ∧
      o.finalMessages ≠ [.text "Hi"] ∧
      (toolMessagesFor c7Get [c7ToolCall]).length =
        ([c7ToolCall].filter
          (fun tc2 => tc2.function.name = "get_website")).length := by
  exact C10_caller_lists_mutated c7Chat c7Get [.text "Hi"] c7Choice [] rfl
    c7ToolCall [] rfl
    (by rintro tc2 htc2
        rcases List.mem_singleton.mp htc2 with rfl
        intro _
        exact ⟨"http://x", rfl⟩)
